import Mathlib

/-
  Verification of the transactional execution engine of ovn-nbctl
  (src/utilities/ovn-nbctl.c) against its natural-language specification.

  The embedding below translates the relevant C functions into Lean:
  oneline_format, handle_main_loop_option / server_parse_options /
  server_cmd_run's global-state reset, nbctl_pre_sync, run_prerequisites'
  callers, do_nbctl (command run loop, symbol-table validation, commit
  dispatch, convergence wait loop) and main_loop (retry loop).
  External collaborators (the ovsdb IDL snapshot, its commit primitive,
  timers) are modelled as oracles supplied per attempt / per iteration.
-/

/-! ## Wait types and global configuration (source lines 53-74) -/

/-- Source: enum nbctl_wait_type (ovn-nbctl.c lines 59-63). -/
inductive NbctlWaitType
  | NBCTL_WAIT_NONE
  | NBCTL_WAIT_SB
  | NBCTL_WAIT_HV
deriving DecidableEq, Repr

/-- Abstract token standing for TABLE_STYLE_DEFAULT (the concrete table
style record lives in the ovs table library, outside this repository). -/
def table_style_default : Nat := 0

/-- The per-invocation global configuration variables of ovn-nbctl.c:
oneline (line 53), dry_run (line 56), wait_type (line 64), force_wait
(line 68), timeout (line 71), table_style (line 74). -/
structure Globals where
  oneline : Bool
  dry_run : Bool
  wait_type : NbctlWaitType
  force_wait : Bool
  timeout : Nat
  table_style : Nat
deriving DecidableEq, Repr

/-- The reset block at the start of server_cmd_run (lines 7936-7942):
oneline = false; dry_run = false; wait_type = NBCTL_WAIT_NONE;
force_wait = false; timeout = 0; table_style = table_style_default. -/
def resetGlobals (_g : Globals) : Globals :=
  { oneline := false
    dry_run := false
    wait_type := .NBCTL_WAIT_NONE
    force_wait := false
    timeout := 0
    table_style := table_style_default }

/-- The default global state at process start (static initializers,
lines 53-74). -/
def initialGlobals : Globals :=
  { oneline := false
    dry_run := false
    wait_type := .NBCTL_WAIT_NONE
    force_wait := false
    timeout := 0
    table_style := table_style_default }

/-! ## Option handling in the daemon request path -/

/-- One recognized option occurrence as delivered by getopt to
server_parse_options (lines 7842-7897).  Tokenization below the command
boundary is out of the spec's scope, so each occurrence carries its
already-split argument string. -/
inductive ServerOpt
  | OPT_ONELINE
  | OPT_NO_WAIT
  | OPT_WAIT (arg : String)
  | OPT_DRY_RUN
  | OPT_TIMEOUT (arg : String)
  | OPT_TABLE (style : Nat)
  | OPT_LOCAL (name value : String)
deriving DecidableEq, Repr

/-- Source: handle_main_loop_option (lines 333-377), plus the
TABLE_OPTION_HANDLERS / OPT_LOCAL cases of server_parse_options
(lines 7860-7869).  str_to_uint on base 10 is modelled by
String.toNat?. -/
def handle_main_loop_option (g : Globals) : ServerOpt → Except String Globals
  | .OPT_ONELINE => .ok { g with oneline := true }
  | .OPT_NO_WAIT => .ok { g with wait_type := .NBCTL_WAIT_NONE }
  | .OPT_WAIT arg =>
    if arg = "none" then .ok { g with wait_type := .NBCTL_WAIT_NONE }
    else if arg = "sb" then .ok { g with wait_type := .NBCTL_WAIT_SB }
    else if arg = "hv" then .ok { g with wait_type := .NBCTL_WAIT_HV }
    else .error "argument to --wait must be \"none\", \"sb\", or \"hv\""
  | .OPT_DRY_RUN => .ok { g with dry_run := true }
  | .OPT_TIMEOUT arg =>
    match arg.toNat? with
    | none => .error ("value " ++ arg ++ " on -t or --timeout is invalid")
    | some n =>
      if n = 0 then .error ("value " ++ arg ++ " on -t or --timeout is invalid")
      else .ok { g with timeout := n }
  | .OPT_TABLE style => .ok { g with table_style := style }
  | .OPT_LOCAL _ _ => .ok g

/-- The option loop of server_parse_options (lines 7842-7897): fold the
recognized options over the global state, stopping at the first error. -/
def server_parse_options (g : Globals) : List ServerOpt → Except String Globals
  | [] => .ok g
  | opt :: rest =>
    match handle_main_loop_option g opt with
    | .error e => .error e
    | .ok g' => server_parse_options g' rest

/-- The configuration phase of server_cmd_run (lines 7936-7947): reset
all per-invocation globals, then parse the request's own options. -/
def server_cmd_run_config (g : Globals) (opts : List ServerOpt) :
    Except String Globals :=
  server_parse_options (resetGlobals g) opts

/-! ## The oneline output renderer (source lines 7309-7331) -/

/-- Source: ds_chomp(lines, ch) from the ovs dynamic-string library:
drop the final character when it equals the given one (here always
applied with a newline). -/
def ds_chomp (s : List Char) : List Char :=
  if s.getLast? = some '\n' then s.dropLast else s

/-- The character switch in the body of oneline_format's loop
(lines 7315-7329). -/
def onelineEscape : List Char → List Char
  | [] => []
  | c :: rest =>
    if c = '\n' then '\\' :: 'n' :: onelineEscape rest
    else if c = '\\' then '\\' :: '\\' :: onelineEscape rest
    else c :: onelineEscape rest

/-- Source: oneline_format (lines 7309-7331): chomp one trailing
newline, escape the remaining characters, then append exactly one real
newline. -/
def oneline_format (lines : String) : String :=
  String.mk (onelineEscape (ds_chomp lines.data) ++ ['\n'])

/-- Modelled from the spec's words (for the refinement comparison in
claim C7): per-character encoding of the oneline rendering. -/
def onelineEncodeChar (c : Char) : List Char :=
  if c = '\n' then ['\\', 'n']
  else if c = '\\' then ['\\', '\\']
  else [c]

/-- Modelled from the spec's words (claim C7): drop the input's
trailing newline when there is one. -/
def stripTrailingNewline (l : List Char) : List Char :=
  match l.reverse with
  | c :: rest => if c = '\n' then rest.reverse else l
  | [] => l

/-- Modelled from the spec's words (claim C7): the input with its
trailing newline removed, each remaining character encoded
independently, followed by one real trailing newline. -/
def onelineSpecRender (s : String) : String :=
  String.mk (((stripTrailingNewline s.data).map onelineEncodeChar).flatten ++ ['\n'])

/-! ## The per-attempt transaction executor: do_nbctl (lines 7342-7533) -/

/-- Source: enum ovsdb_idl_txn_status, as dispatched on by the switch in
do_nbctl (lines 7440-7469). -/
inductive TxnStatus
  | TXN_UNCOMMITTED
  | TXN_UNCHANGED
  | TXN_INCOMPLETE
  | TXN_ABORTED
  | TXN_SUCCESS
  | TXN_TRY_AGAIN
  | TXN_ERROR
  | TXN_NOT_LOCKED
deriving DecidableEq, Repr

/-- What one command's run callback signals through the ctl_context:
success, a local error (ctx.error), or stale data (ctx.try_again). -/
inductive RunOutcome
  | ok
  | err (e : String)
  | tryAgain
deriving DecidableEq, Repr

/-- One bound command as seen by do_nbctl: whether c->syntax->run and
c->syntax->postprocess are non-null, what the run callback signals, the
row mutations it proposes on the shared transaction (opaque ids), and
the error, if any, its postprocess callback reports. -/
structure CtlCommand where
  hasRun : Bool
  outcome : RunOutcome
  muts : List Nat
  hasPostprocess : Bool
  postError : Option String
deriving DecidableEq, Repr

/-- One entry of the ovsdb symbol table as read by the validation loop
of do_nbctl (lines 7400-7419): name, created flag, strong/weak
reference flags. -/
structure OvsdbSymbol where
  name : String
  created : Bool
  strong_ref : Bool
  weak_ref : Bool
deriving DecidableEq, Repr

/-- The per-attempt transaction: proposed row mutations, whether
nbrec_nb_global_insert was called because the snapshot had no NB_Global
row (lines 7364-7368), and whether ovsdb_idl_txn_increment was requested
on nb_cfg, with its force flag (lines 7370-7373). -/
structure Txn where
  muts : List Nat
  insertedNbGlobal : Bool
  incr : Option Bool
deriving DecidableEq, Repr

/-- The environment of one do_nbctl attempt: whether the snapshot holds
an NB_Global row, the bound commands, the symbol table contents after
all run callbacks (the callbacks themselves belong to out-of-scope
entity handlers), and the external commit primitive
ovsdb_idl_txn_commit_block together with ovsdb_idl_txn_get_error and
ovsdb_idl_txn_get_increment_new_value. -/
structure AttemptEnv where
  hasNbGlobal : Bool
  commands : List CtlCommand
  symtab : List OvsdbSymbol
  commitStatus : Txn → TxnStatus
  txnErrorMsg : String
  incrNewValue : Int

/-- Lines 7357-7373 of do_nbctl: create the transaction, insert an
NB_Global row when the snapshot has none, and request the nb_cfg
generation-counter increment (with the force_wait flag) when a wait
mode is configured. -/
def setupTxn (g : Globals) (env : AttemptEnv) : Txn :=
  let t : Txn := { muts := [], insertedNbGlobal := !env.hasNbGlobal, incr := none }
  if g.wait_type ≠ .NBCTL_WAIT_NONE then { t with incr := some g.force_wait } else t

/-- Result of the command run loop (lines 7381-7397): the first error
aborts the batch (goto out_error), the first try_again aborts the batch
for retry (goto try_again), otherwise all callbacks ran. -/
inductive RunPhase
  | errorAt (e : String) (t : Txn)
  | tryAgainAt (t : Txn)
  | done (t : Txn)
deriving DecidableEq, Repr

/-- The transaction carried by a RunPhase result. -/
def RunPhase.txn : RunPhase → Txn
  | .errorAt _ t => t
  | .tryAgainAt t => t
  | .done t => t

/-- The command run loop of do_nbctl (lines 7381-7397): execute each
run callback in order against the shared transaction; ctx.error aborts
the whole batch at once, ctx.try_again aborts it for retry. -/
def runCommands : List CtlCommand → Txn → RunPhase
  | [], txn => .done txn
  | c :: rest, txn =>
    if c.hasRun then
      let txn' : Txn := { txn with muts := txn.muts ++ c.muts }
      match c.outcome with
      | .err e => .errorAt e txn'
      | .tryAgain => .tryAgainAt txn'
      | .ok => runCommands rest txn'
    else runCommands rest txn

/-- Error message of lines 7403-7405. -/
def symNeverCreatedMsg (n : String) : String :=
  "row id \"" ++ n ++ "\" is referenced but never created" ++
  " (e.g. with \"-- --id=" ++ n ++ " create ...\")"

/-- Warning message of lines 7410-7412. -/
def symNoRefWarning (n : String) : String :=
  "row id \"" ++ n ++ "\" was created but no reference to it " ++
  "was inserted, so it will not actually appear in the database"

/-- Warning message of lines 7414-7416. -/
def symWeakRefWarning (n : String) : String :=
  "row id \"" ++ n ++ "\" was created but only a weak " ++
  "reference to it was inserted, so it will not actually appear in " ++
  "the database"

/-- The symbol-table validation loop of do_nbctl (lines 7400-7419):
walk the table in order; the first symbol without its created flag is a
fatal error; a created symbol without a strong reference only logs a
warning (one of two texts depending on the weak flag).  Returns the
warnings logged before the loop stopped and the fatal error, if any. -/
def checkSymtab : List OvsdbSymbol → List String × Option String
  | [] => ([], none)
  | s :: rest =>
    if s.created = false then ([], some (symNeverCreatedMsg s.name))
    else
      let ws :=
        if s.strong_ref = false then
          [if s.weak_ref = false then symNoRefWarning s.name
           else symWeakRefWarning s.name]
        else []
      let r := checkSymtab rest
      (ws ++ r.1, r.2)

/-- The postprocess loop of do_nbctl (lines 7426-7437): the error
reported by the first postprocess callback that fails, if any. -/
def firstPostError : List CtlCommand → Option String
  | [] => none
  | c :: rest =>
    if c.hasPostprocess then
      match c.postError with
      | some e => some e
      | none => firstPostError rest
    else firstPostError rest

/-- Outcome of one do_nbctl attempt up to (and including) the decision
whether the convergence wait loop at line 7483 is entered.  status is
none when ovsdb_idl_txn_commit_block was never invoked. -/
structure PreWaitResult where
  error : Option String
  retry : Bool
  txn : Txn
  status : Option TxnStatus
  warnings : List String
  waitEngaged : Bool
  nextCfg : Int
deriving Repr

/-- The out_error exit of do_nbctl (lines 7520-7532): the transaction
is aborted and destroyed, the error string is returned. -/
def outErrorResult (e : String) (t : Txn) (st : Option TxnStatus)
    (ws : List String) : PreWaitResult :=
  { error := some e, retry := false, txn := t, status := st,
    warnings := ws, waitEngaged := false, nextCfg := 0 }

/-- The try_again exit of do_nbctl (lines 7515-7519): the transaction
is aborted, retry is reported, no error is returned. -/
def tryAgainResult (t : Txn) (st : Option TxnStatus) (ws : List String) :
    PreWaitResult :=
  { error := none, retry := true, txn := t, status := st,
    warnings := ws, waitEngaged := false, nextCfg := 0 }

/-- do_nbctl (lines 7342-7513) up to the convergence wait loop: set up
the transaction, run every command's run callback, validate the symbol
table, commit, compute next_cfg, run the postprocess callbacks, map the
commit status through the switch of lines 7440-7469, and decide whether
the wait loop of line 7483 is entered.  OVS_NOT_REACHED marks the two
commit statuses the source asserts impossible. -/
def doNbctlPreWait (g : Globals) (env : AttemptEnv) : PreWaitResult :=
  let txn0 := setupTxn g env
  match runCommands env.commands txn0 with
  | .errorAt e t => outErrorResult e t none []
  | .tryAgainAt t => tryAgainResult t none []
  | .done t =>
    let ck := checkSymtab env.symtab
    match ck.2 with
    | some e => outErrorResult e t none ck.1
    | none =>
      let status := env.commitStatus t
      let next_cfg : Int :=
        if g.wait_type ≠ .NBCTL_WAIT_NONE ∧ status = .TXN_SUCCESS
        then env.incrNewValue else 0
      let postErr :=
        if status = .TXN_UNCHANGED ∨ status = .TXN_SUCCESS
        then firstPostError env.commands else none
      match postErr with
      | some e => outErrorResult e t (some status) ck.1
      | none =>
        match status with
        | .TXN_UNCOMMITTED => outErrorResult "OVS_NOT_REACHED" t (some status) ck.1
        | .TXN_INCOMPLETE => outErrorResult "OVS_NOT_REACHED" t (some status) ck.1
        | .TXN_ABORTED => outErrorResult "transaction aborted" t (some status) ck.1
        | .TXN_TRY_AGAIN => tryAgainResult t (some status) ck.1
        | .TXN_ERROR =>
          outErrorResult ("transaction error: " ++ env.txnErrorMsg) t
            (some status) ck.1
        | .TXN_NOT_LOCKED => outErrorResult "database not locked" t (some status) ck.1
        | .TXN_UNCHANGED =>
          { error := none, retry := false, txn := t, status := some status,
            warnings := ck.1,
            waitEngaged := decide (g.wait_type ≠ .NBCTL_WAIT_NONE ∧
                                   status ≠ .TXN_UNCHANGED),
            nextCfg := next_cfg }
        | .TXN_SUCCESS =>
          { error := none, retry := false, txn := t, status := some status,
            warnings := ck.1,
            waitEngaged := decide (g.wait_type ≠ .NBCTL_WAIT_NONE ∧
                                   status ≠ .TXN_UNCHANGED),
            nextCfg := next_cfg }

/-- Observable database contents after one attempt: the proposed
mutations become visible exactly when the commit primitive reported
TXN_SUCCESS; an aborted or never-committed transaction changes
nothing. -/
def dbAfter (db : List Nat) (r : PreWaitResult) : List Nat :=
  if r.status = some .TXN_SUCCESS then db ++ r.txn.muts else db

/-! ## The convergence wait loop (lines 7483-7506) -/

/-- One NB_Global row as observed through the snapshot inside the wait
loop: the nb_cfg, sb_cfg and hv_cfg counters. -/
structure NbGlobalRow where
  nb_cfg : Int
  sb_cfg : Int
  hv_cfg : Int
deriving DecidableEq, Repr

/-- Environment of the wait loop: the NB_Global rows visible after the
snapshot refresh of iteration i, and whether timer_expired(wait_timeout)
holds after the poll_block of iteration i. -/
structure WaitEnv where
  rows : Nat → List NbGlobalRow
  timerExpired : Nat → Bool

/-- Lines 7488-7490: the dependent counter read from a row, sb_cfg for
NBCTL_WAIT_SB and hv_cfg otherwise (the loop only runs for sb or hv). -/
def curCfg (wt : NbctlWaitType) (nb : NbGlobalRow) : Int :=
  if wt = .NBCTL_WAIT_SB then nb.sb_cfg else nb.hv_cfg

/-- Lines 7487-7494: some observed row's dependent counter has reached
the target (cur_cfg >= next_cfg causes goto done). -/
def waitSatisfied (wt : NbctlWaitType) (next_cfg : Int)
    (rows : List NbGlobalRow) : Bool :=
  rows.any (fun nb => next_cfg ≤ curCfg wt nb)

/-- One iteration of the wait loop (lines 7485-7504): first the row
check (goto done yields success, modelled some none), then the
timer-expiry check after poll_block (yields the error "timeout
expired"); otherwise the loop continues (none). -/
def waitStep (wt : NbctlWaitType) (hasTimer : Bool) (wenv : WaitEnv)
    (next_cfg : Int) (i : Nat) : Option (Option String) :=
  if waitSatisfied wt next_cfg (wenv.rows i) then some none
  else if hasTimer && wenv.timerExpired i then some (some "timeout expired")
  else none

/-- The wait loop run for a bounded number of iterations starting at
refresh cycle i: some none on success, some (some e) on error, none
when the fuel ran out with the loop still blocked. -/
def waitRun (wt : NbctlWaitType) (hasTimer : Bool) (wenv : WaitEnv)
    (next_cfg : Int) : Nat → Nat → Option (Option String)
  | 0, _ => none
  | fuel + 1, i =>
    match waitStep wt hasTimer wenv next_cfg i with
    | some r => some r
    | none => waitRun wt hasTimer wenv next_cfg fuel (i + 1)

/-! ## The retry loop: main_loop (lines 249-299) -/

/-- What a do_nbctl attempt reports back to main_loop: an error string
(returned to the caller), a retry request, or success (return NULL
with retry false). -/
inductive AttemptRes
  | success
  | retryRes
  | fatal (e : String)
deriving DecidableEq, Repr

/-- Environment of main_loop: the seqno read before the loop
(line 263), ovsdb_idl_has_ever_connected at entry (line 268), and per
iteration i: whether the IDL is alive after ovsdb_idl_run, the seqno it
then reports, whether it has ever connected by then, what a do_nbctl
attempt at that iteration would report, and the wait_timeout expiry
state (which main_loop itself never reads). -/
structure LoopEnv where
  entrySeqno : Nat
  idlReady0 : Bool
  alive : Nat → Bool
  seqnoAt : Nat → Nat
  everConnected : Nat → Bool
  res : Nat → AttemptRes
  timerExpiredAt : Nat → Bool

/-- Terminal outcomes of main_loop: ctl_fatal on a dead connection
(lines 271-275), an error returned from do_nbctl (line 285), or success
(line 288). -/
inductive LoopTerm
  | connFail
  | fatalErr (e : String)
  | ok
deriving DecidableEq, Repr

/-- The loop-carried state of main_loop: the seqno for which an attempt
was last made (or the entry seqno) and the idl_ready flag. -/
structure LoopSt where
  seqno : Nat
  idl_ready : Bool
deriving DecidableEq, Repr

/-- One iteration of main_loop's for(;;) body (lines 269-296): check
liveness, attempt when idl_ready or the seqno changed (updating the
state and dispatching on the attempt result), otherwise keep the state
and block until the next event. -/
def loopStep (env : LoopEnv) (i : Nat) (st : LoopSt) : LoopTerm ⊕ LoopSt :=
  if env.alive i = false then Sum.inl .connFail
  else if st.idl_ready = true ∨ st.seqno ≠ env.seqnoAt i then
    match env.res i with
    | .fatal e => Sum.inl (.fatalErr e)
    | .success => Sum.inl .ok
    | .retryRes => Sum.inr { seqno := env.seqnoAt i, idl_ready := false }
  else Sum.inr st

/-- The state of main_loop at the start of iteration i (inl means the
loop already terminated with the given outcome). -/
def stateAt (env : LoopEnv) : Nat → LoopTerm ⊕ LoopSt
  | 0 => Sum.inr { seqno := env.entrySeqno, idl_ready := env.idlReady0 }
  | i + 1 =>
    match stateAt env i with
    | Sum.inl t => Sum.inl t
    | Sum.inr st => loopStep env i st

/-- Whether iteration i performs a do_nbctl attempt: the loop is still
running, the IDL is alive and the gating condition of line 277 holds. -/
def attemptAt (env : LoopEnv) (i : Nat) : Bool :=
  match stateAt env i with
  | Sum.inl _ => false
  | Sum.inr st =>
    env.alive i && (st.idl_ready || decide (st.seqno ≠ env.seqnoAt i))

/-- main_loop never terminates: every iteration is still running. -/
def mainLoopRunsForever (env : LoopEnv) : Prop :=
  ∀ n, ∃ st, stateAt env n = Sum.inr st

/-! ## The sync command prerequisite (lines 1139-1147) -/

/-- Source: nbctl_pre_sync (lines 1139-1147): when a wait mode is
configured set force_wait, otherwise only log the notice that "sync"
has no effect without --wait.  The Bool records whether the notice was
logged. -/
def nbctl_pre_sync (g : Globals) : Globals × Bool :=
  if g.wait_type ≠ .NBCTL_WAIT_NONE then ({ g with force_wait := true }, false)
  else (g, true)

/-! ## Concrete instances used by witnesses and counterexamples -/

/-- A command whose run callback succeeds and proposes one mutation. -/
def cmdOkW : CtlCommand :=
  { hasRun := true, outcome := .ok, muts := [3], hasPostprocess := false,
    postError := none }

/-- A command whose run callback reports a local lookup error. -/
def cmdErrW : CtlCommand :=
  { hasRun := true, outcome := .err "lr-add: a router named r1 already exists",
    muts := [7], hasPostprocess := false, postError := none }

/-- Attempt environment for the C1 witness: an ok command followed by a
failing one. -/
def c1EnvW : AttemptEnv :=
  { hasNbGlobal := true, commands := [cmdOkW, cmdErrW], symtab := [],
    commitStatus := fun _ => .TXN_SUCCESS, txnErrorMsg := "", incrNewValue := 1 }

/-- A symbol declared via an id option but never created. -/
def symFooW : OvsdbSymbol :=
  { name := "foo", created := false, strong_ref := false, weak_ref := false }

/-- A symbol created but holding only a weak reference. -/
def symBarW : OvsdbSymbol :=
  { name := "bar", created := true, strong_ref := false, weak_ref := true }

/-- Attempt environment for the C2 witness, uncreated-symbol half. -/
def c2EnvW : AttemptEnv :=
  { hasNbGlobal := true, commands := [cmdOkW], symtab := [symFooW],
    commitStatus := fun _ => .TXN_SUCCESS, txnErrorMsg := "", incrNewValue := 1 }

/-- Attempt environment for the C2 witness, weak-reference half. -/
def c2EnvOkW : AttemptEnv :=
  { hasNbGlobal := true, commands := [cmdOkW], symtab := [symBarW],
    commitStatus := fun _ => .TXN_SUCCESS, txnErrorMsg := "", incrNewValue := 1 }

/-- A main-loop environment that is warm at entry and whose first
attempt succeeds. -/
def c3EnvW : LoopEnv :=
  { entrySeqno := 0, idlReady0 := true, alive := fun _ => true,
    seqnoAt := fun _ => 0, everConnected := fun _ => true,
    res := fun _ => .success, timerExpiredAt := fun _ => false }

/-- Counterexample environment for C4: the deadline timer is expired at
every iteration, the first attempt requests retry, and the snapshot
sequence number never changes afterwards. -/
def c4CexEnv : LoopEnv :=
  { entrySeqno := 0, idlReady0 := true, alive := fun _ => true,
    seqnoAt := fun _ => 0, everConnected := fun _ => true,
    res := fun _ => .retryRes, timerExpiredAt := fun _ => true }

/-- A wait-loop environment with no rows and an expired timer. -/
def c4WaitEnvW : WaitEnv :=
  { rows := fun _ => [], timerExpired := fun _ => true }

/-- Globals with --wait=sb configured. -/
def sbGlobals : Globals :=
  { initialGlobals with wait_type := .NBCTL_WAIT_SB }

/-- Counterexample environment for C5: an empty batch whose commit
reports TXN_TRY_AGAIN. -/
def c5CexEnv : AttemptEnv :=
  { hasNbGlobal := true, commands := [], symtab := [],
    commitStatus := fun _ => .TXN_TRY_AGAIN, txnErrorMsg := "",
    incrNewValue := 0 }

/-- A wait-loop environment whose first refresh already shows a
caught-up sb_cfg counter. -/
def c6WaitEnvW : WaitEnv :=
  { rows := fun _ => [{ nb_cfg := 5, sb_cfg := 5, hv_cfg := 0 }],
    timerExpired := fun _ => false }

/-- A wait-loop environment that never catches up and whose timer is
expired. -/
def c6WaitEnvTimeoutW : WaitEnv :=
  { rows := fun _ => [{ nb_cfg := 5, sb_cfg := 1, hv_cfg := 0 }],
    timerExpired := fun _ => true }

/-- Attempt environment whose commit always succeeds, used by the C6
witness for the next_cfg link. -/
def c6EnvW : AttemptEnv :=
  { hasNbGlobal := true, commands := [], symtab := [],
    commitStatus := fun _ => .TXN_SUCCESS, txnErrorMsg := "", incrNewValue := 5 }

/-- Attempt environment for the C9 witness: the snapshot holds no
NB_Global row. -/
def c9EnvW : AttemptEnv :=
  { hasNbGlobal := false, commands := [], symtab := [],
    commitStatus := fun _ => .TXN_SUCCESS, txnErrorMsg := "", incrNewValue := 1 }

/-- Attempt environment for the C10 witness: the commit primitive
reports success exactly when a forced increment is present and
no-change otherwise. -/
def c10EnvW : AttemptEnv :=
  { hasNbGlobal := true, commands := [], symtab := [],
    commitStatus := fun t => if t.incr = some true then .TXN_SUCCESS
                             else .TXN_UNCHANGED,
    txnErrorMsg := "", incrNewValue := 4 }

/-! ## Helper lemmas -/

lemma onelineEscape_eq_flatten_map (l : List Char) :
    onelineEscape l = (l.map onelineEncodeChar).flatten := by
  induction l with
  | nil => rfl
  | cons c rest ih =>
    by_cases h1 : c = '\n'
    · simp [onelineEscape, onelineEncodeChar, h1, ih]
    · by_cases h2 : c = '\\'
      · simp [onelineEscape, onelineEncodeChar, h1, h2, ih]
      · simp [onelineEscape, onelineEncodeChar, h1, h2, ih]

lemma stripTrailingNewline_eq_ds_chomp (l : List Char) :
    stripTrailingNewline l = ds_chomp l := by
  unfold stripTrailingNewline
  cases h : l.reverse with
  | nil =>
    have hl : l = [] := by
      have := congrArg List.reverse h
      simpa using this
    simp [hl, ds_chomp]
  | cons c rest =>
    have hl : l = rest.reverse ++ [c] := by
      have := congrArg List.reverse h
      simpa using this
    subst hl
    by_cases hc : c = '\n'
    · simp [ds_chomp, hc]
    · simp [ds_chomp, hc]

lemma runCommands_txn_fields (cmds : List CtlCommand) (txn : Txn) :
    (runCommands cmds txn).txn.insertedNbGlobal = txn.insertedNbGlobal ∧
    (runCommands cmds txn).txn.incr = txn.incr := by
  induction cmds generalizing txn with
  | nil => simp [runCommands, RunPhase.txn]
  | cons c rest ih =>
    by_cases h : c.hasRun = true
    · cases hc : c.outcome with
      | ok =>
        simpa [runCommands, h, hc] using ih { txn with muts := txn.muts ++ c.muts }
      | err e => simp [runCommands, h, hc, RunPhase.txn]
      | tryAgain => simp [runCommands, h, hc, RunPhase.txn]
    · simpa [runCommands, h] using ih txn

lemma runCommands_done_of_ok (cmds : List CtlCommand) (txn : Txn)
    (h : ∀ c ∈ cmds, c.hasRun = true → c.outcome = .ok) :
    ∃ t, runCommands cmds txn = .done t := by
  induction cmds generalizing txn with
  | nil => exact ⟨txn, rfl⟩
  | cons c rest ih =>
    by_cases hr : c.hasRun = true
    · have ho := h c (by simp) hr
      simpa [runCommands, hr, ho] using
        ih { txn with muts := txn.muts ++ c.muts }
          (fun c' hc' => h c' (by simp [hc']))
    · simpa [runCommands, hr] using
        ih txn (fun c' hc' => h c' (by simp [hc']))

lemma runCommands_first_error (pre post : List CtlCommand) (c : CtlCommand)
    (txn : Txn) (e : String)
    (hpre : ∀ c' ∈ pre, c'.hasRun = true → c'.outcome = .ok)
    (hr : c.hasRun = true) (he : c.outcome = .err e) :
    ∃ t, runCommands (pre ++ c :: post) txn = .errorAt e t := by
  induction pre generalizing txn with
  | nil =>
    exact ⟨{ txn with muts := txn.muts ++ c.muts }, by simp [runCommands, hr, he]⟩
  | cons c' rest ih =>
    by_cases hr' : c'.hasRun = true
    · have ho := hpre c' (by simp) hr'
      simpa [runCommands, hr', ho] using
        ih { txn with muts := txn.muts ++ c'.muts } (fun x hx => hpre x (by simp [hx]))
    · simpa [runCommands, hr'] using
        ih txn (fun x hx => hpre x (by simp [hx]))

lemma checkSymtab_err_of_first_uncreated (pre post : List OvsdbSymbol)
    (s : OvsdbSymbol) (hpre : ∀ x ∈ pre, x.created = true)
    (hs : s.created = false) :
    (checkSymtab (pre ++ s :: post)).2 = some (symNeverCreatedMsg s.name) := by
  induction pre with
  | nil => simp [checkSymtab, hs]
  | cons x rest ih =>
    have hx : x.created = true := hpre x (by simp)
    simpa [checkSymtab, hx] using ih (fun y hy => hpre y (by simp [hy]))

lemma checkSymtab_ok_of_all_created (l : List OvsdbSymbol)
    (h : ∀ x ∈ l, x.created = true) : (checkSymtab l).2 = none := by
  induction l with
  | nil => rfl
  | cons x rest ih =>
    have hx : x.created = true := h x (by simp)
    simpa [checkSymtab, hx] using ih (fun y hy => h y (by simp [hy]))

lemma checkSymtab_warning_mem (l : List OvsdbSymbol)
    (hall : ∀ x ∈ l, x.created = true) (s : OvsdbSymbol) (hs : s ∈ l)
    (hw : s.strong_ref = false) :
    (if s.weak_ref = false then symNoRefWarning s.name
     else symWeakRefWarning s.name) ∈ (checkSymtab l).1 := by
  induction l with
  | nil => cases hs
  | cons x rest ih =>
    have hx : x.created = true := hall x (by simp)
    rcases List.mem_cons.mp hs with rfl | hs'
    · simp [checkSymtab, hx, hw]
    · have := ih (fun y hy => hall y (by simp [hy])) hs'
      by_cases hxs : x.strong_ref = false
      · simp [checkSymtab, hx, hxs]
        right
        exact this
      · simpa [checkSymtab, hx, hxs] using this

lemma checkSymtab_err_of_some_uncreated (l : List OvsdbSymbol)
    (h : ∃ s ∈ l, s.created = false) : ∃ e, (checkSymtab l).2 = some e := by
  induction l with
  | nil => simp at h
  | cons x rest ih =>
    by_cases hx : x.created = false
    · exact ⟨symNeverCreatedMsg x.name, by simp [checkSymtab, hx]⟩
    · rcases h with ⟨s, hs, hsc⟩
      rcases List.mem_cons.mp hs with rfl | hs'
      · exact absurd hsc hx
      · rcases ih ⟨s, hs', hsc⟩ with ⟨e, he⟩
        exact ⟨e, by simpa [checkSymtab, hx] using he⟩

lemma stateAt_inl_stable (env : LoopEnv) (n : Nat) (t : LoopTerm)
    (h : stateAt env n = Sum.inl t) :
    ∀ d, stateAt env (n + d) = Sum.inl t := by
  intro d
  induction d with
  | zero => simpa using h
  | succ d ih =>
    rw [Nat.add_succ]
    simp [stateAt, ih]

lemma attemptAt_spec (env : LoopEnv) (i : Nat)
    (h : attemptAt env i = true) :
    ∃ st, stateAt env i = Sum.inr st ∧ env.alive i = true ∧
      (st.idl_ready = true ∨ st.seqno ≠ env.seqnoAt i) := by
  unfold attemptAt at h
  cases hst : stateAt env i with
  | inl t => rw [hst] at h; simp at h
  | inr st =>
    rw [hst] at h
    have h1 := (Bool.and_eq_true _ _).mp h
    refine ⟨st, rfl, h1.1, ?_⟩
    rcases (Bool.or_eq_true _ _).mp h1.2 with h2 | h2
    · exact Or.inl h2
    · exact Or.inr (of_decide_eq_true h2)

lemma attempt_step (env : LoopEnv) (i : Nat) (st : LoopSt)
    (hst : stateAt env i = Sum.inr st) (ha : attemptAt env i = true) :
    stateAt env (i + 1) =
      (match env.res i with
       | .fatal e => Sum.inl (.fatalErr e)
       | .success => Sum.inl .ok
       | .retryRes => Sum.inr { seqno := env.seqnoAt i, idl_ready := false }) := by
  rcases attemptAt_spec env i ha with ⟨st', hst', halive, hcond⟩
  rw [hst] at hst'
  cases hst'
  have : stateAt env (i + 1) = loopStep env i st := by simp [stateAt, hst]
  rw [this]
  unfold loopStep
  rw [halive]
  simp [hcond]

lemma no_attempt_step (env : LoopEnv) (i : Nat) (st : LoopSt)
    (hst : stateAt env i = Sum.inr st) (hna : attemptAt env i = false) :
    stateAt env (i + 1) = Sum.inr st ∨
    stateAt env (i + 1) = Sum.inl .connFail := by
  have hstep : stateAt env (i + 1) = loopStep env i st := by simp [stateAt, hst]
  by_cases halive : env.alive i = true
  · left
    have hcond : (st.idl_ready || decide (st.seqno ≠ env.seqnoAt i)) = false := by
      unfold attemptAt at hna
      rw [hst] at hna
      simpa [halive] using hna
    have h1 : st.idl_ready = false := ((Bool.or_eq_false_iff).mp hcond).1
    have h2 : ¬st.seqno ≠ env.seqnoAt i :=
      of_decide_eq_false ((Bool.or_eq_false_iff).mp hcond).2
    rw [hstep]
    unfold loopStep
    rw [halive]
    simp [h1, h2]
  · right
    have halive' : env.alive i = false := by
      cases h : env.alive i
      · rfl
      · exact absurd h halive
    rw [hstep]
    unfold loopStep
    rw [halive']
    simp

lemma window_preserve (env : LoopEnv) (m : Nat) (st : LoopSt)
    (hst : stateAt env m = Sum.inr st) :
    ∀ d, (∀ k, m ≤ k → k < m + d → attemptAt env k = false) →
      stateAt env (m + d) = Sum.inr st ∨
      ∃ t, stateAt env (m + d) = Sum.inl t := by
  intro d
  induction d with
  | zero => intro _; left; simpa using hst
  | succ d ih =>
    intro h
    rcases ih (fun k hk1 hk2 => h k hk1 (by omega)) with hrun | ⟨t, ht⟩
    · have hna : attemptAt env (m + d) = false := h _ (by omega) (by omega)
      rw [Nat.add_succ]
      rcases no_attempt_step env (m + d) st hrun hna with h1 | h1
      · exact Or.inl h1
      · exact Or.inr ⟨_, h1⟩
    · right
      rw [Nat.add_succ]
      exact ⟨t, by simpa using stateAt_inl_stable env (m + d) t ht 1⟩

lemma waitRun_first_hit (wt : NbctlWaitType) (ht : Bool) (wenv : WaitEnv)
    (V : Int) :
    ∀ n b r fuel, (∀ j, j < n → waitStep wt ht wenv V (b + j) = none) →
      waitStep wt ht wenv V (b + n) = some r → n < fuel →
      waitRun wt ht wenv V fuel b = some r := by
  intro n
  induction n with
  | zero =>
    intro b r fuel _ hstep hfuel
    cases fuel with
    | zero => omega
    | succ f =>
      have hstep' : waitStep wt ht wenv V b = some r := by simpa using hstep
      simp [waitRun, hstep']
  | succ n ih =>
    intro b r fuel hnone hstep hfuel
    cases fuel with
    | zero => omega
    | succ f =>
      have h0 : waitStep wt ht wenv V b = none := by
        simpa using hnone 0 (by omega)
      have hred : waitRun wt ht wenv V (f + 1) b = waitRun wt ht wenv V f (b + 1) := by
        simp [waitRun, h0]
      rw [hred]
      refine ih (b + 1) r f (fun j hj => ?_) ?_ (by omega)
      · have := hnone (j + 1) (by omega)
        have harith : b + (j + 1) = b + 1 + j := by omega
        rwa [harith] at this
      · have harith : b + (n + 1) = b + 1 + n := by omega
        rwa [harith] at hstep

lemma doNbctl_txn_eq (g : Globals) (env : AttemptEnv) :
    (doNbctlPreWait g env).txn =
      (runCommands env.commands (setupTxn g env)).txn := by
  unfold doNbctlPreWait
  cases hr : runCommands env.commands (setupTxn g env) with
  | errorAt e t => simp [hr, RunPhase.txn, outErrorResult]
  | tryAgainAt t => simp [hr, RunPhase.txn, tryAgainResult]
  | done t =>
    cases hck : (checkSymtab env.symtab).2 with
    | some e => simp [hr, hck, RunPhase.txn, outErrorResult]
    | none =>
      cases hs : env.commitStatus t <;>
        cases hp : firstPostError env.commands <;>
          simp [hr, hck, hs, hp, RunPhase.txn, outErrorResult, tryAgainResult]

lemma doNbctl_engaged_char (g : Globals) (env : AttemptEnv) :
    ((doNbctlPreWait g env).waitEngaged = true ↔
      (g.wait_type ≠ .NBCTL_WAIT_NONE ∧
       (doNbctlPreWait g env).status = some .TXN_SUCCESS ∧
       (doNbctlPreWait g env).error = none ∧
       (doNbctlPreWait g env).retry = false)) ∧
    ((doNbctlPreWait g env).waitEngaged = true →
      (doNbctlPreWait g env).nextCfg = env.incrNewValue) := by
  unfold doNbctlPreWait
  cases hr : runCommands env.commands (setupTxn g env) with
  | errorAt e t => simp [hr, outErrorResult]
  | tryAgainAt t => simp [hr, tryAgainResult]
  | done t =>
    cases hck : (checkSymtab env.symtab).2 with
    | some e => simp [hr, hck, outErrorResult]
    | none =>
      cases hs : env.commitStatus t <;>
        cases hp : firstPostError env.commands <;>
          simp [hr, hck, hs, hp, outErrorResult, tryAgainResult] <;>
            exact fun h1 h2 => absurd h2 h1

lemma doNbctl_commit_fields (g : Globals) (env : AttemptEnv) (t : Txn)
    (hrun : runCommands env.commands (setupTxn g env) = .done t)
    (hck : (checkSymtab env.symtab).2 = none) :
    (doNbctlPreWait g env).status = some (env.commitStatus t) ∧
    (doNbctlPreWait g env).warnings = (checkSymtab env.symtab).1 := by
  unfold doNbctlPreWait
  cases hs : env.commitStatus t <;>
    cases hp : firstPostError env.commands <;>
      simp [hrun, hck, hs, hp, outErrorResult, tryAgainResult]

lemma doNbctl_success_fields (g : Globals) (env : AttemptEnv) (t : Txn)
    (hrun : runCommands env.commands (setupTxn g env) = .done t)
    (hck : (checkSymtab env.symtab).2 = none)
    (hs : env.commitStatus t = .TXN_SUCCESS)
    (hp : firstPostError env.commands = none) :
    (doNbctlPreWait g env).error = none ∧
    (doNbctlPreWait g env).retry = false ∧
    (doNbctlPreWait g env).status = some .TXN_SUCCESS ∧
    ((doNbctlPreWait g env).waitEngaged = true ↔
      g.wait_type ≠ .NBCTL_WAIT_NONE) := by
  unfold doNbctlPreWait
  simp [hrun, hck, hs, hp]

/-! ## Claim theorems -/

/-- Claim C1: for every batch in which some command's run callback
reports an error (all commands before it succeeding), do_nbctl returns
exactly that error string, never invokes the commit primitive (status
is none), requests no retry, engages no convergence wait, and the
observable database is unchanged: no mutation proposed by any command
of the batch, earlier or later, becomes visible. -/
theorem c1_batch_atomic_on_run_error (g : Globals) (env : AttemptEnv)
    (db : List Nat) (pre post : List CtlCommand) (c : CtlCommand) (e : String)
    (hcmds : env.commands = pre ++ c :: post)
    (hpre : ∀ c' ∈ pre, c'.hasRun = true → c'.outcome = .ok)
    (hr : c.hasRun = true) (he : c.outcome = .err e) :
    (doNbctlPreWait g env).error = some e ∧
    (doNbctlPreWait g env).status = none ∧
    (doNbctlPreWait g env).retry = false ∧
    (doNbctlPreWait g env).waitEngaged = false ∧
    dbAfter db (doNbctlPreWait g env) = db := by
  obtain ⟨t, hrun⟩ :=
    runCommands_first_error pre post c (setupTxn g env) e hpre hr he
  have hrun' : runCommands env.commands (setupTxn g env) = .errorAt e t := by
    rw [hcmds]; exact hrun
  unfold doNbctlPreWait
  simp [hrun', outErrorResult, dbAfter]

/-- Witness for C1 at a concrete two-command batch. -/
theorem c1_batch_atomic_on_run_error_witness :
    (doNbctlPreWait initialGlobals c1EnvW).error =
      some "lr-add: a router named r1 already exists" ∧
    (doNbctlPreWait initialGlobals c1EnvW).status = none ∧
    (doNbctlPreWait initialGlobals c1EnvW).retry = false ∧
    (doNbctlPreWait initialGlobals c1EnvW).waitEngaged = false ∧
    dbAfter [1, 2] (doNbctlPreWait initialGlobals c1EnvW) = [1, 2] :=
  c1_batch_atomic_on_run_error initialGlobals c1EnvW [1, 2] [cmdOkW] []
    cmdErrW "lr-add: a router named r1 already exists" rfl (by decide) rfl rfl

/-- Claim C2: after all run callbacks succeed, do_nbctl validates the
symbol table before committing: the first declared symbol whose created
flag is unset makes the attempt fail, before any commit, with an error
that begins with exactly row id "name" is referenced but never created
and names that symbol; if all symbols are created, the commit proceeds
(the commit primitive is invoked) and every created symbol lacking a
strong reference only contributes a warning (one of two texts depending
on whether a weak reference exists). -/
theorem c2_symbol_table_validation (g : Globals) (env : AttemptEnv)
    (hok : ∀ c ∈ env.commands, c.hasRun = true → c.outcome = .ok) :
    (∀ pre s post, env.symtab = pre ++ s :: post →
       (∀ x ∈ pre, x.created = true) → s.created = false →
       (doNbctlPreWait g env).error = some (symNeverCreatedMsg s.name) ∧
       (doNbctlPreWait g env).status = none ∧
       symNeverCreatedMsg s.name =
         ("row id \"" ++ s.name ++ "\" is referenced but never created") ++
         (" (e.g. with \"-- --id=" ++ s.name ++ " create ...\")")) ∧
    ((∀ x ∈ env.symtab, x.created = true) →
       (∃ st, (doNbctlPreWait g env).status = some st) ∧
       (∀ s ∈ env.symtab, s.strong_ref = false →
         (if s.weak_ref = false then symNoRefWarning s.name
          else symWeakRefWarning s.name) ∈ (doNbctlPreWait g env).warnings)) := by
  obtain ⟨t, hrun⟩ := runCommands_done_of_ok env.commands (setupTxn g env) hok
  constructor
  · intro pre s post hsym hpre hs
    have hck : (checkSymtab env.symtab).2 = some (symNeverCreatedMsg s.name) := by
      rw [hsym]; exact checkSymtab_err_of_first_uncreated pre post s hpre hs
    refine ⟨?_, ?_, ?_⟩
    · unfold doNbctlPreWait; simp [hrun, hck, outErrorResult]
    · unfold doNbctlPreWait; simp [hrun, hck, outErrorResult]
    · simp only [symNeverCreatedMsg, String.append_assoc]
  · intro hall
    have hck := checkSymtab_ok_of_all_created env.symtab hall
    have hfields := doNbctl_commit_fields g env t hrun hck
    refine ⟨⟨env.commitStatus t, hfields.1⟩, ?_⟩
    intro s hs hw
    rw [hfields.2]
    exact checkSymtab_warning_mem env.symtab hall s hs hw

/-- Witness for C2: a never-created symbol "foo" yields the named fatal
error before commit, and a created-but-weakly-referenced symbol "bar"
yields only its warning while the attempt reaches commit. -/
theorem c2_symbol_table_validation_witness :
    (doNbctlPreWait initialGlobals c2EnvW).error =
      some (symNeverCreatedMsg "foo") ∧
    (doNbctlPreWait initialGlobals c2EnvW).status = none ∧
    symWeakRefWarning "bar" ∈ (doNbctlPreWait initialGlobals c2EnvOkW).warnings := by
  have h1 := (c2_symbol_table_validation initialGlobals c2EnvW (by decide)).1
    [] symFooW [] rfl (by decide) rfl
  have h2 := (c2_symbol_table_validation initialGlobals c2EnvOkW (by decide)).2
    (by decide)
  refine ⟨h1.1, h1.2.1, ?_⟩
  have h3 := h2.2 symBarW (by decide) rfl
  simpa [symBarW] using h3

/-- Claim C7: the oneline rendering drops one trailing newline, encodes
each remaining newline as the two characters backslash-n and each
backslash as two backslashes, leaves all other characters unchanged in
order, and appends exactly one real newline; in particular the input
consisting of a, newline, b renders as the five characters a, backslash,
n, b, newline. -/
theorem c7_oneline_format_encoding (s : String) :
    oneline_format s = onelineSpecRender s ∧
    oneline_format "a\nb" = "a\\nb\n" ∧
    (oneline_format "a\nb").length = 5 := by
  refine ⟨?_, by decide, by decide⟩
  unfold oneline_format onelineSpecRender
  rw [stripTrailingNewline_eq_ds_chomp, onelineEscape_eq_flatten_map]

/-- Claim C8: server_cmd_run resets every per-invocation global
(oneline, dry_run, wait_type, force_wait, timeout, table_style) to its
default before parsing the request's own options, so the configuration
a request's commands run under is independent of whatever a previous
request left in the globals. -/
theorem c8_daemon_request_isolation (g1 g2 : Globals) (opts : List ServerOpt) :
    resetGlobals g1 = initialGlobals ∧
    server_cmd_run_config g1 opts = server_cmd_run_config g2 opts ∧
    server_cmd_run_config g1 opts = server_parse_options initialGlobals opts :=
  ⟨rfl, rfl, rfl⟩

/-- Claim C3: main_loop attempts exactly under the gating of line 277:
the first iteration attempts iff the idl_ready flag (warm connection) is
set or the seqno moved during the first refresh, and an attempt on the
first iteration implies the IDL has connected by then; a later iteration
attempts only when its seqno differs from the seqno of the last attempt;
a retry outcome keeps the loop running; an error outcome terminates the
loop immediately and permanently with that error. -/
theorem c3_main_loop_gating (env : LoopEnv)
    (hwarm : env.idlReady0 = true → env.everConnected 0 = true)
    (hcold : ∀ i, env.everConnected i = false →
      env.seqnoAt i = env.entrySeqno) :
    (attemptAt env 0 =
      (env.alive 0 &&
        (env.idlReady0 || decide (env.entrySeqno ≠ env.seqnoAt 0)))) ∧
    (attemptAt env 0 = true → env.everConnected 0 = true) ∧
    (∀ i j, j < i → attemptAt env j = true → attemptAt env i = true →
      (∀ k, j < k → k < i → attemptAt env k = false) →
      env.seqnoAt i ≠ env.seqnoAt j) ∧
    (∀ i, attemptAt env i = true → env.res i = .retryRes →
      ∃ st, stateAt env (i + 1) = Sum.inr st) ∧
    (∀ i e d, attemptAt env i = true → env.res i = .fatal e →
      stateAt env (i + 1 + d) = Sum.inl (.fatalErr e)) := by
  have hfatal : ∀ i e, attemptAt env i = true → env.res i = .fatal e →
      stateAt env (i + 1) = Sum.inl (.fatalErr e) := by
    intro i e hai hres
    rcases attemptAt_spec env i hai with ⟨st, hst, _, _⟩
    have h := attempt_step env i st hst hai
    rw [hres] at h
    simpa using h
  refine ⟨rfl, ?_, ?_, ?_, ?_⟩
  · intro h
    have h0 : attemptAt env 0 =
        (env.alive 0 &&
          (env.idlReady0 || decide (env.entrySeqno ≠ env.seqnoAt 0))) := rfl
    rw [h0] at h
    have h1 := (Bool.and_eq_true _ _).mp h
    rcases (Bool.or_eq_true _ _).mp h1.2 with h2 | h2
    · exact hwarm h2
    · have hne : env.entrySeqno ≠ env.seqnoAt 0 := of_decide_eq_true h2
      cases hc : env.everConnected 0
      · exact absurd (hcold 0 hc).symm hne
      · rfl
  · intro i j hji haj hai hwin
    rcases attemptAt_spec env j haj with ⟨stj, hstj, _, _⟩
    rcases attemptAt_spec env i hai with ⟨sti, hsti, halivei, hcondi⟩
    have hres : env.res j = .retryRes := by
      cases hres : env.res j with
      | retryRes => rfl
      | success =>
        have h1 : stateAt env (j + 1) = Sum.inl .ok := by
          have h := attempt_step env j stj hstj haj
          rw [hres] at h
          simpa using h
        have h2 := stateAt_inl_stable env (j + 1) .ok h1 (i - (j + 1))
        rw [show j + 1 + (i - (j + 1)) = i by omega] at h2
        rw [h2] at hsti
        cases hsti
      | fatal e =>
        have h1 := hfatal j e haj hres
        have h2 := stateAt_inl_stable env (j + 1) (.fatalErr e) h1 (i - (j + 1))
        rw [show j + 1 + (i - (j + 1)) = i by omega] at h2
        rw [h2] at hsti
        cases hsti
    have hnext : stateAt env (j + 1) =
        Sum.inr { seqno := env.seqnoAt j, idl_ready := false } := by
      have h := attempt_step env j stj hstj haj
      rw [hres] at h
      simpa using h
    have hwp := window_preserve env (j + 1)
      { seqno := env.seqnoAt j, idl_ready := false } hnext (i - (j + 1))
      (fun k hk1 hk2 => hwin k (by omega) (by omega))
    rw [show j + 1 + (i - (j + 1)) = i by omega] at hwp
    rcases hwp with hruni | ⟨tt, htt⟩
    · have hsteq : sti = { seqno := env.seqnoAt j, idl_ready := false } := by
        rw [hruni] at hsti
        exact (Sum.inr.inj hsti).symm
      subst hsteq
      rcases hcondi with h1 | h1
      · simp at h1
      · exact Ne.symm h1
    · rw [htt] at hsti
      cases hsti
  · intro i hai hres
    rcases attemptAt_spec env i hai with ⟨st, hst, _, _⟩
    have h := attempt_step env i st hst hai
    rw [hres] at h
    exact ⟨_, by simpa using h⟩
  · intro i e d hai hres
    exact stateAt_inl_stable env (i + 1) _ (hfatal i e hai hres) d

/-- Witness for C3: a warm environment attempts on the first iteration
and the IDL has indeed connected. -/
theorem c3_main_loop_gating_witness :
    attemptAt c3EnvW 0 = true ∧ c3EnvW.everConnected 0 = true := by
  have h := c3_main_loop_gating c3EnvW (fun _ => rfl)
    (fun i hc => by simp [c3EnvW] at hc)
  exact ⟨by decide, h.2.1 (by decide)⟩

/-- Counterexample to claim C4 as stated: a concrete run in which the
caller-supplied deadline timer is expired at every iteration while
main_loop waits between retry attempts for the snapshot sequence number
to change, yet the loop never terminates at all, in particular never
with a fatal "timeout expired" error. -/
theorem c4_counterexample_timer_ignored_between_retries :
    c4CexEnv.timerExpiredAt 0 = true ∧
    attemptAt c4CexEnv 0 = true ∧
    c4CexEnv.res 0 = .retryRes ∧
    mainLoopRunsForever c4CexEnv := by
  refine ⟨rfl, by decide, rfl, ?_⟩
  have key : ∀ n, stateAt c4CexEnv (n + 1) =
      Sum.inr { seqno := 0, idl_ready := false } := by
    intro n
    induction n with
    | zero => decide
    | succ n ih =>
      have h : stateAt c4CexEnv (n + 1 + 1) =
          match stateAt c4CexEnv (n + 1) with
          | Sum.inl t => Sum.inl t
          | Sum.inr st => loopStep c4CexEnv (n + 1) st := rfl
      rw [h, ih]
      rfl
  intro n
  cases n with
  | zero => exact ⟨_, rfl⟩
  | succ n => exact ⟨_, key n⟩

/-- Claim C4 (amended): main_loop itself never consults the deadline
timer — its trace is unchanged under any timer-expiry history — and the
timer only takes effect inside do_nbctl's convergence wait loop, where
an expired timer with an unsatisfied counter produces exactly the
"timeout expired" error. -/
theorem c4_timer_only_in_convergence_wait (env : LoopEnv) (f : Nat → Bool)
    (n : Nat) (wt : NbctlWaitType) (wenv : WaitEnv) (V : Int) (i : Nat) :
    stateAt { env with timerExpiredAt := f } n = stateAt env n ∧
    attemptAt { env with timerExpiredAt := f } n = attemptAt env n ∧
    (waitSatisfied wt V (wenv.rows i) = false → wenv.timerExpired i = true →
      waitStep wt true wenv V i = some (some "timeout expired")) := by
  have hstate : ∀ m, stateAt { env with timerExpiredAt := f } m = stateAt env m := by
    intro m
    induction m with
    | zero => rfl
    | succ m ih =>
      simp only [stateAt, ih]
      cases stateAt env m with
      | inl t => rfl
      | inr st => rfl
  refine ⟨hstate n, ?_, ?_⟩
  · unfold attemptAt
    rw [hstate n]
  · intro hsat hexp
    simp [waitStep, hsat, hexp]

/-- Witness for C4's amended statement at a concrete environment. -/
theorem c4_timer_only_in_convergence_wait_witness :
    stateAt { c4CexEnv with timerExpiredAt := fun _ => false } 3 =
      stateAt c4CexEnv 3 ∧
    waitStep .NBCTL_WAIT_SB true c4WaitEnvW 5 0 =
      some (some "timeout expired") :=
  ⟨(c4_timer_only_in_convergence_wait c4CexEnv (fun _ => false) 3
      .NBCTL_WAIT_SB c4WaitEnvW 5 0).1,
   (c4_timer_only_in_convergence_wait c4CexEnv (fun _ => false) 3
      .NBCTL_WAIT_SB c4WaitEnvW 5 0).2.2 (by decide) rfl⟩

/-- Counterexample to claim C5 as stated: with --wait=sb configured and
a commit that reports TXN_TRY_AGAIN — a status different from
"unchanged" — the convergence wait loop is nevertheless not entered, so
"entered iff wait mode not none and status not unchanged" is false. -/
theorem c5_counterexample_try_again_not_engaged :
    sbGlobals.wait_type ≠ .NBCTL_WAIT_NONE ∧
    (doNbctlPreWait sbGlobals c5CexEnv).status = some .TXN_TRY_AGAIN ∧
    TxnStatus.TXN_TRY_AGAIN ≠ TxnStatus.TXN_UNCHANGED ∧
    (doNbctlPreWait sbGlobals c5CexEnv).waitEngaged = false := by
  decide

/-- Claim C5 (amended): the convergence wait loop is entered iff the
wait mode is not none, the commit completed with changes (TXN_SUCCESS)
and neither a run callback, the symbol validation, nor a postprocess
callback failed (no error, no retry); in particular any attempt whose
commit status is not TXN_SUCCESS — an unchanged commit included — never
polls the downstream counter even when a wait mode is configured. -/
theorem c5_wait_engagement_condition (g : Globals) (env : AttemptEnv) :
    ((doNbctlPreWait g env).waitEngaged = true ↔
      (g.wait_type ≠ .NBCTL_WAIT_NONE ∧
       (doNbctlPreWait g env).status = some .TXN_SUCCESS ∧
       (doNbctlPreWait g env).error = none ∧
       (doNbctlPreWait g env).retry = false)) ∧
    (∀ st, (doNbctlPreWait g env).status = some st → st ≠ .TXN_SUCCESS →
      (doNbctlPreWait g env).waitEngaged = false) := by
  refine ⟨(doNbctl_engaged_char g env).1, ?_⟩
  intro st hst hne
  cases hbe : (doNbctlPreWait g env).waitEngaged with
  | false => rfl
  | true =>
    have hS := ((doNbctl_engaged_char g env).1.mp hbe).2.1
    rw [hst] at hS
    exact absurd (Option.some.inj hS) hne

/-- Witness for C5's amended statement: the TXN_TRY_AGAIN attempt does
not engage the wait. -/
theorem c5_wait_engagement_condition_witness :
    (doNbctlPreWait sbGlobals c5CexEnv).waitEngaged = false :=
  (c5_wait_engagement_condition sbGlobals c5CexEnv).2 .TXN_TRY_AGAIN
    (by decide) (by decide)

/-- Claim C6: when the wait is engaged its target is the committed
generation value (the increment's new value); in mode sb the dependent
counter is sb_cfg and in mode hv it is hv_cfg; the wait loop returns
success at the first refresh on which some observed NB_Global row's
dependent counter reaches the target, and if instead the configured
timer is expired at a refresh that does not satisfy the target (no
earlier step having finished), it fails with exactly "timeout
expired". -/
theorem c6_convergence_wait_behavior (g : Globals) (env : AttemptEnv)
    (wt : NbctlWaitType) (ht : Bool) (wenv : WaitEnv) (V : Int)
    (i fuel : Nat) :
    ((doNbctlPreWait g env).waitEngaged = true →
      (doNbctlPreWait g env).nextCfg = env.incrNewValue) ∧
    (∀ nb : NbGlobalRow, curCfg .NBCTL_WAIT_SB nb = nb.sb_cfg ∧
      curCfg .NBCTL_WAIT_HV nb = nb.hv_cfg) ∧
    ((∀ j, j < i → waitStep wt ht wenv V j = none) →
      waitSatisfied wt V (wenv.rows i) = true → i < fuel →
      waitRun wt ht wenv V fuel 0 = some none) ∧
    ((∀ j, j < i → waitStep wt ht wenv V j = none) →
      waitSatisfied wt V (wenv.rows i) = false →
      ht = true → wenv.timerExpired i = true → i < fuel →
      waitRun wt ht wenv V fuel 0 = some (some "timeout expired")) := by
  refine ⟨(doNbctl_engaged_char g env).2, ?_, ?_, ?_⟩
  · intro nb
    exact ⟨by simp [curCfg], by simp [curCfg]⟩
  · intro hnone hsat hfuel
    have hstep : waitStep wt ht wenv V (0 + i) = some none := by
      rw [Nat.zero_add]
      simp [waitStep, hsat]
    exact waitRun_first_hit wt ht wenv V i 0 none fuel
      (fun j hj => by rw [Nat.zero_add]; exact hnone j hj) hstep hfuel
  · intro hnone hsat hht hexp hfuel
    have hstep : waitStep wt ht wenv V (0 + i) = some (some "timeout expired") := by
      rw [Nat.zero_add]
      simp [waitStep, hsat, hht, hexp]
    exact waitRun_first_hit wt ht wenv V i 0 (some "timeout expired") fuel
      (fun j hj => by rw [Nat.zero_add]; exact hnone j hj) hstep hfuel

/-- Witness for C6: a first refresh that already shows sb_cfg = 5 ≥ 5
satisfies the wait at once, and a never-satisfying refresh with an
expired timer produces exactly "timeout expired". -/
theorem c6_convergence_wait_behavior_witness :
    waitRun .NBCTL_WAIT_SB false c6WaitEnvW 5 1 0 = some none ∧
    waitRun .NBCTL_WAIT_SB true c6WaitEnvTimeoutW 5 1 0 =
      some (some "timeout expired") :=
  ⟨(c6_convergence_wait_behavior initialGlobals c6EnvW .NBCTL_WAIT_SB false
      c6WaitEnvW 5 0 1).2.2.1 (fun j hj => absurd hj (by omega)) (by decide)
      (by decide),
   (c6_convergence_wait_behavior initialGlobals c6EnvW .NBCTL_WAIT_SB true
      c6WaitEnvTimeoutW 5 0 1).2.2.2 (fun j hj => absurd hj (by omega))
      (by decide) rfl (by decide) (by decide)⟩

/-- Claim C9: the transaction of every attempt records an inserted
NB_Global row exactly when the snapshot had none, so when a wait mode is
configured the requested nb_cfg increment (carrying the force_wait
flag) always has a target row, either the observed one or the freshly
inserted one. -/
theorem c9_nb_global_bootstrap (g : Globals) (env : AttemptEnv) :
    ((doNbctlPreWait g env).txn.insertedNbGlobal = !env.hasNbGlobal) ∧
    (env.hasNbGlobal = false →
      (doNbctlPreWait g env).txn.insertedNbGlobal = true) ∧
    (g.wait_type ≠ .NBCTL_WAIT_NONE →
      (doNbctlPreWait g env).txn.incr = some g.force_wait ∧
      (env.hasNbGlobal = true ∨
       (doNbctlPreWait g env).txn.insertedNbGlobal = true)) := by
  have hfields := runCommands_txn_fields env.commands (setupTxn g env)
  have htxn := doNbctl_txn_eq g env
  have hins : (doNbctlPreWait g env).txn.insertedNbGlobal =
      (setupTxn g env).insertedNbGlobal := by
    rw [htxn]; exact hfields.1
  have hincr : (doNbctlPreWait g env).txn.incr = (setupTxn g env).incr := by
    rw [htxn]; exact hfields.2
  have hsetIns : (setupTxn g env).insertedNbGlobal = !env.hasNbGlobal := by
    unfold setupTxn
    split <;> rfl
  refine ⟨by rw [hins, hsetIns], ?_, ?_⟩
  · intro h
    rw [hins, hsetIns, h]
    rfl
  · intro hw
    refine ⟨by rw [hincr]; unfold setupTxn; simp [hw], ?_⟩
    cases hh : env.hasNbGlobal
    · right
      rw [hins, hsetIns, hh]
      rfl
    · left
      rfl

/-- Witness for C9 on a snapshot with no NB_Global row and --wait=sb. -/
theorem c9_nb_global_bootstrap_witness :
    (doNbctlPreWait sbGlobals c9EnvW).txn.insertedNbGlobal = true ∧
    (doNbctlPreWait sbGlobals c9EnvW).txn.incr = some false := by
  have h := c9_nb_global_bootstrap sbGlobals c9EnvW
  exact ⟨h.2.1 rfl, (h.2.2 (by decide)).1⟩

/-- Claim C10: nbctl_pre_sync sets force_wait exactly when a wait mode
is configured (logging only a notice otherwise and leaving the globals
untouched), and since the increment then carries force = true, a commit
primitive that honours a forced increment (never reporting no-change
for it; modelled from the spec, as ovsdb_idl_txn_increment lives
outside this repository) reports success, so the convergence waiter is
engaged even for the otherwise empty sync transaction. -/
theorem c10_sync_force_wait (g : Globals) (env : AttemptEnv)
    (hwait : g.wait_type ≠ .NBCTL_WAIT_NONE)
    (hok : ∀ c ∈ env.commands, c.hasRun = true → c.outcome = .ok)
    (hsym : ∀ x ∈ env.symtab, x.created = true)
    (hpost : firstPostError env.commands = none)
    (hforce : ∀ t : Txn, t.incr = some true →
      env.commitStatus t ≠ .TXN_UNCHANGED)
    (hcomplete : ∀ t : Txn, env.commitStatus t = .TXN_SUCCESS ∨
      env.commitStatus t = .TXN_UNCHANGED) :
    ((nbctl_pre_sync g).1.force_wait = true ∧ (nbctl_pre_sync g).2 = false) ∧
    (∀ g', g'.wait_type = .NBCTL_WAIT_NONE → nbctl_pre_sync g' = (g', true)) ∧
    (doNbctlPreWait (nbctl_pre_sync g).1 env).status = some .TXN_SUCCESS ∧
    (doNbctlPreWait (nbctl_pre_sync g).1 env).waitEngaged = true := by
  have hg1 : (nbctl_pre_sync g).1 = { g with force_wait := true } := by
    unfold nbctl_pre_sync
    simp [hwait]
  have hg2 : (nbctl_pre_sync g).2 = false := by
    unfold nbctl_pre_sync
    simp [hwait]
  have hwt' : ({ g with force_wait := true } : Globals).wait_type ≠
      .NBCTL_WAIT_NONE := hwait
  obtain ⟨t, hrun⟩ := runCommands_done_of_ok env.commands
    (setupTxn (nbctl_pre_sync g).1 env) hok
  have hincr : t.incr = some true := by
    have h1 := (runCommands_txn_fields env.commands
      (setupTxn (nbctl_pre_sync g).1 env)).2
    rw [hrun] at h1
    have h2 : (setupTxn (nbctl_pre_sync g).1 env).incr =
        some (nbctl_pre_sync g).1.force_wait := by
      unfold setupTxn
      rw [hg1]
      simp [hwt']
    rw [RunPhase.txn] at h1
    rw [h1, h2, hg1]
  have hs : env.commitStatus t = .TXN_SUCCESS := by
    rcases hcomplete t with h | h
    · exact h
    · exact absurd h (hforce t hincr)
  have hck := checkSymtab_ok_of_all_created env.symtab hsym
  have hfin := doNbctl_success_fields (nbctl_pre_sync g).1 env t hrun hck hs hpost
  refine ⟨⟨by rw [hg1], hg2⟩, ?_, hfin.2.2.1, ?_⟩
  · intro g' hg'
    unfold nbctl_pre_sync
    simp [hg']
  · refine hfin.2.2.2.mpr ?_
    rw [hg1]
    exact hwt'

/-- Witness for C10 with --wait=sb, an empty batch and a commit oracle
that honours forced increments. -/
theorem c10_sync_force_wait_witness :
    (nbctl_pre_sync sbGlobals).1.force_wait = true ∧
    (doNbctlPreWait (nbctl_pre_sync sbGlobals).1 c10EnvW).status =
      some .TXN_SUCCESS ∧
    (doNbctlPreWait (nbctl_pre_sync sbGlobals).1 c10EnvW).waitEngaged = true := by
  have h := c10_sync_force_wait sbGlobals c10EnvW (by decide) (by decide)
    (by decide) rfl
    (fun t ht => by simp [c10EnvW, ht])
    (fun t => by
      by_cases ht : t.incr = some true
      · simp [c10EnvW, ht]
      · simp [c10EnvW, ht])
  exact ⟨h.1.1, h.2.2.1, h.2.2.2⟩
